import Mathlib

/-!
Shallow embedding of `electrum/lnrouter.py` (Lightning routing core):
the gossip-driven channel/policy store and the reverse-Dijkstra path finder.

Modelling conventions:
* Python byte strings used as identifiers (node ids, short channel ids) are
  modelled as natural numbers; the lexicographic order on the hex strings is
  modelled by the order on the naturals, and the empty byte string by `0`.
* Python `int` is modelled as `Int` (msat amounts and fees), non-negative
  wire-decoded fields as `Nat`; `//` is `Int.fdiv` (floor division).
* Python `float` arithmetic in heuristic costs and the `amount/10` fee bound
  is modelled exactly over `ℚ`; on the magnitudes involved the source's
  float computation and the rational one order identically.
* Python exceptions are modelled with `Except PyError`; a raised exception is
  `Except.error`.
* SQLAlchemy tables are modelled as lists of rows; `Query.one_or_none` /
  `Query.one` become `queryOneOrNone` / `queryOne` over the filtered list.
-/

namespace ElectrumLNRouter

abbrev NodeId := Nat
abbrev SCID := Nat

/-- The Python exceptions that the embedded code can raise. -/
inductive PyError where
  | attributeError (attr : String)
  | noResultFound
  | multipleResultsFound
  | notFoundChanAnnouncementForUpdate
  | unknownEvenFeatureBits
  | exceptionMsg (msg : String)
deriving Repr, DecidableEq

deriving instance DecidableEq for Except

/-- SQLAlchemy `Query.one_or_none`: no row gives `none`, one row gives the row,
more rows raise `MultipleResultsFound`. -/
def queryOneOrNone {α : Type} (rows : List α) : Except PyError (Option α) :=
  match rows with
  | [] => .ok none
  | [x] => .ok (some x)
  | _ :: _ :: _ => .error .multipleResultsFound

/-- SQLAlchemy `Query.one`: exactly one row or an exception
(`NoResultFound` on zero rows, `MultipleResultsFound` on several). -/
def queryOne {α : Type} (rows : List α) : Except PyError α :=
  match rows with
  | [] => .error .noResultFound
  | [x] => .ok x
  | _ :: _ :: _ => .error .multipleResultsFound

/-! ## Feature-bit validation (`validate_features`) -/

/-- Modelled from the spec: the helper `list_enabled_bits` (imported from
`util`, not part of this source file) returns the indices of the set bits of
the feature bitfield. -/
def list_enabled_bits (features : Nat) : List Nat :=
  (List.range (features.log2 + 1)).filter (fun b => features.testBit b)

/-- Transcribed from `validate_features`: walk the enabled bits and raise
`UnknownEvenFeatureBits` at the first set bit `fbit` such that `1 <<< fbit` is
not in the known set and `fbit` is even.  The constant
`LN_GLOBAL_FEATURES_KNOWN_SET` is imported from `lnutil` (not in this source
file) and is modelled as the explicit parameter `known_set`. -/
def validate_features (known_set : List Nat) (features : Nat) : Except PyError Unit :=
  match (list_enabled_bits features).find?
      (fun fbit => (decide ((2 ^ fbit) ∉ known_set)) && (decide (fbit % 2 = 0))) with
  | some _ => .error .unknownEvenFeatureBits
  | none => .ok ()

theorem mem_list_enabled_bits (features b : Nat) :
    b ∈ list_enabled_bits features ↔ features.testBit b = true := by
  unfold list_enabled_bits
  simp only [List.mem_filter, List.mem_range]
  constructor
  · rintro ⟨-, h⟩; exact h
  · intro h
    refine ⟨?_, h⟩
    have hge : 2 ^ b ≤ features := by
      by_contra hlt
      push_neg at hlt
      rw [Nat.testBit_eq_false_of_lt hlt] at h
      exact Bool.false_ne_true h
    have hpos : 0 < 2 ^ b := pow_pos (by norm_num) b
    have hne : features ≠ 0 := by omega
    have : b ≤ features.log2 := (Nat.le_log2 hne).mpr hge
    omega

/-! ## Route edges (`RouteEdge`) -/

structure RouteEdge where
  node_id : NodeId
  short_channel_id : SCID
  fee_base_msat : Nat
  fee_proportional_millionths : Nat
  cltv_expiry_delta : Nat
deriving Repr, DecidableEq

/-- Transcribed from `RouteEdge.fee_for_edge`:
`fee_base_msat + amount_msat * fee_proportional_millionths // 1_000_000`
(Python `//` is floor division). -/
def RouteEdge.fee_for_edge (e : RouteEdge) (amount_msat : Int) : Int :=
  (e.fee_base_msat : Int)
    + Int.fdiv (amount_msat * (e.fee_proportional_millionths : Int)) 1000000

/-- Transcribed from `RouteEdge.is_sane_to_use`.  The comparison
`total_fee > amount_msat / 10` uses Python true division; it is modelled
exactly over `ℚ`. -/
def RouteEdge.is_sane_to_use (e : RouteEdge) (amount_msat : Int) : Bool :=
  -- cltv cannot be more than 2 weeks
  if 14 * 144 < e.cltv_expiry_delta then false
  else
    let total_fee := e.fee_for_edge amount_msat
    -- fees below 50 sat are fine
    if 50000 < total_fee then
      -- fee cannot be higher than amt
      if amount_msat < total_fee then false
      -- fee cannot be higher than 5000 sat
      else if 5000000 < total_fee then false
      -- unless amt is tiny, fee cannot be more than 10%
      else if 1000000 < amount_msat ∧ (amount_msat : ℚ) / 10 < (total_fee : ℚ) then false
      else true
    else true

/-- C3: `is_sane_to_use(amount_msat)` returns `False` exactly when
`cltv_expiry_delta > 14 * 144`, or the computed total fee exceeds
`amount_msat` (this test applying only if the fee exceeds 50,000 msat), or
the fee exceeds 5,000,000 msat, or `amount_msat > 1,000,000` and the fee
exceeds `amount_msat / 10`; in every other case it returns `True`. -/
theorem is_sane_to_use_false_iff (e : RouteEdge) (amount_msat : Int) :
    e.is_sane_to_use amount_msat = false ↔
      (14 * 144 < e.cltv_expiry_delta
        ∨ (50000 < e.fee_for_edge amount_msat
            ∧ amount_msat < e.fee_for_edge amount_msat)
        ∨ 5000000 < e.fee_for_edge amount_msat
        ∨ (1000000 < amount_msat
            ∧ (amount_msat : ℚ) / 10 < ((e.fee_for_edge amount_msat : Int) : ℚ))) := by
  unfold RouteEdge.is_sane_to_use
  by_cases h1 : 14 * 144 < e.cltv_expiry_delta
  · simp [h1]
  · simp only [h1, if_false, false_or]
    set f := e.fee_for_edge amount_msat with hf
    by_cases h2 : 50000 < f
    · by_cases h3 : amount_msat < f
      · simp [h2, h3]
      · by_cases h4 : 5000000 < f
        · simp [h2, h3, h4]
        · by_cases h5 : 1000000 < amount_msat ∧ (amount_msat : ℚ) / 10 < (f : ℚ)
          · simp [h2, h3, h4, h5]
          · simp [h2, h3, h4, h5]
    · -- fee at most 50000: every fee-based disjunct fails
      have h3 : ¬ 5000000 < f := by omega
      have h5 : ¬ (1000000 < amount_msat ∧ (amount_msat : ℚ) / 10 < (f : ℚ)) := by
        rintro ⟨ha, hq⟩
        have ha' : (1000000 : ℚ) < (amount_msat : ℚ) := by exact_mod_cast ha
        have h100 : (100000 : ℚ) < (f : ℚ) := by linarith
        have : (100000 : Int) < f := by exact_mod_cast h100
        omega
      simp [h2, h3, h5]

/-- C6: `validate_features` raises `UnknownEvenFeatureBits` if and only if some
set bit `b` of the bitfield is even and `1 <<< b` is not in the known set; a
bitfield whose unknown set bits are all odd never causes a failure. -/
theorem validate_features_error_iff (known_set : List Nat) (features : Nat) :
    validate_features known_set features = .error .unknownEvenFeatureBits ↔
      ∃ b, features.testBit b = true ∧ b % 2 = 0 ∧ (2 ^ b) ∉ known_set := by
  unfold validate_features
  rcases hfind : (list_enabled_bits features).find?
      (fun fbit => (decide ((2 ^ fbit) ∉ known_set)) && (decide (fbit % 2 = 0))) with _ | b
  · constructor
    · intro h; exact absurd h (by simp)
    · rintro ⟨b, hb, heven, hmem⟩
      have hnone := List.find?_eq_none.mp hfind b ((mem_list_enabled_bits features b).mpr hb)
      simp only [Bool.and_eq_true, decide_eq_true_eq] at hnone
      exact absurd ⟨hmem, heven⟩ hnone
  · constructor
    · intro _
      have hmem := List.mem_of_find?_eq_some hfind
      have hpred := List.find?_some hfind
      simp only [Bool.and_eq_true, decide_eq_true_eq] at hpred
      exact ⟨b, (mem_list_enabled_bits features b).mp hmem, hpred.2, hpred.1⟩
    · intro _; rfl

/-! ## Address-list decoding (`NodeInfoInDB.parse_addresses_field`) -/

/-- Big-endian `int.from_bytes` (the empty byte string decodes to `0`). -/
def bytesToNat (bs : List Nat) : Nat := bs.foldl (fun acc b => acc * 256 + b) 0

/-- The RFC 4648 base32 alphabet digit for a 5-bit value. -/
def b32digit (n : Nat) : Char :=
  if n < 26 then Char.ofNat (65 + n) else Char.ofNat (50 + (n - 26))

/-- The eight base32 digits of a 40-bit group value. -/
def b32group (v : Nat) : List Char :=
  (List.range 8).map (fun i => b32digit ((v >>> (35 - 5 * i)) % 32))

/-- Split a byte string into 5-byte groups, a trailing partial group kept. -/
def toChunks5 : List Nat → List (List Nat)
  | [] => []
  | a :: b :: c :: d :: e :: rest => [a, b, c, d, e] :: toChunks5 rest
  | l => [l]

/-- Encode one (possibly partial) 5-byte group: zero-pad, emit the eight
base32 digits, and replace the digits unused by a partial group with `=`. -/
def b32chunk (g : List Nat) : List Char :=
  let v := bytesToNat (g ++ List.replicate (5 - g.length) 0)
  let keep : Nat :=
    match g.length with
    | 1 => 2 | 2 => 4 | 3 => 5 | 4 => 7 | _ => 8
  (b32group v).take keep ++ List.replicate (8 - keep) '='

/-- Python `base64.b32encode` on a byte string. -/
def b32encode (bs : List Nat) : List Char :=
  (toChunks5 bs).foldr (fun g acc => b32chunk g ++ acc) []

/-- ASCII `str.lower` on one character. -/
def asciiLower (c : Char) : Char :=
  if 'A' ≤ c ∧ c ≤ 'Z' then Char.ofNat (c.toNat + 32) else c

/-- The host string built by the onion branches of the decoder:
`base64.b32encode(payload) + b'.onion'`, decoded to ASCII and lower-cased. -/
def onionHost (payload : List Nat) : String :=
  String.mk ((b32encode payload).map asciiLower) ++ ".onion"

/-- The IPv4 host string: `'.'.join('%d' % x for x in read(4))`. -/
def ipv4String (bs : List Nat) : String :=
  String.intercalate "." (bs.map (fun b => toString b))

/-- One lowercase hex digit. -/
def hexDigit (n : Nat) : Char :=
  if n < 10 then Char.ofNat (48 + n) else Char.ofNat (87 + n)

/-- `binascii.hexlify`: two lowercase hex digits per byte. -/
def hexlify (bs : List Nat) : List Char :=
  bs.foldr (fun b acc => hexDigit ((b / 16) % 16) :: hexDigit (b % 16) :: acc) []

/-- The IPv6 host string: `b':'.join([binascii.hexlify(read(2)) for i in range(8)])`,
eight 2-byte reads from the buffer. -/
def ipv6String (bs : List Nat) : String :=
  String.intercalate ":"
    ((List.range 8).map (fun i => String.mk (hexlify ((bs.drop (2 * i)).take 2))))

/-- Transcribed from `NodeInfoInDB.parse_addresses_field`: decode the packed
address field record by record; `read(n)` takes the next `n` bytes (fewer when
the buffer is short).  IPv4/IPv6 records are kept only when the host passes
`is_ip_address` and the port is nonzero; onion v2/v3 records are always kept;
an unknown type byte stops the parse.  The helper `is_ip_address` is imported
from `util` (not in this source file) and is modelled as a parameter. -/
def parse_addresses_field (is_ip_address : String → Bool) : List Nat → List (String × Nat)
  | [] => []
  | atype :: buf =>
    if atype = 0 then
      parse_addresses_field is_ip_address buf
    else if atype = 1 then
      let ipv4_addr := ipv4String (buf.take 4)
      let port := bytesToNat ((buf.drop 4).take 2)
      (if is_ip_address ipv4_addr ∧ port ≠ 0 then [(ipv4_addr, port)] else [])
        ++ parse_addresses_field is_ip_address (buf.drop 6)
    else if atype = 2 then
      let ipv6_addr := ipv6String buf
      let port := bytesToNat ((buf.drop 16).take 2)
      (if is_ip_address ipv6_addr ∧ port ≠ 0 then [(ipv6_addr, port)] else [])
        ++ parse_addresses_field is_ip_address (buf.drop 18)
    else if atype = 3 then
      (onionHost (buf.take 10), bytesToNat ((buf.drop 10).take 2))
        :: parse_addresses_field is_ip_address (buf.drop 12)
    else if atype = 4 then
      (onionHost (buf.take 35), bytesToNat ((buf.drop 35).take 2))
        :: parse_addresses_field is_ip_address (buf.drop 37)
    else
      -- unknown address type: its length is unknown, parsing stops here
      []
termination_by l => l.length
decreasing_by all_goals (simp only [List.length_drop, List.length_cons]; omega)

/-- Fuel-indexed version of the decoding loop: one unit of fuel per loop
iteration, `none` when the fuel runs out with bytes still unread. -/
def parseAddressesFuel (is_ip_address : String → Bool) :
    Nat → List Nat → Option (List (String × Nat))
  | _, [] => some []
  | 0, _ :: _ => none
  | fuel + 1, atype :: buf =>
    if atype = 0 then
      parseAddressesFuel is_ip_address fuel buf
    else if atype = 1 then
      let ipv4_addr := ipv4String (buf.take 4)
      let port := bytesToNat ((buf.drop 4).take 2)
      (parseAddressesFuel is_ip_address fuel (buf.drop 6)).map
        (fun tail => (if is_ip_address ipv4_addr ∧ port ≠ 0 then [(ipv4_addr, port)] else []) ++ tail)
    else if atype = 2 then
      let ipv6_addr := ipv6String buf
      let port := bytesToNat ((buf.drop 16).take 2)
      (parseAddressesFuel is_ip_address fuel (buf.drop 18)).map
        (fun tail => (if is_ip_address ipv6_addr ∧ port ≠ 0 then [(ipv6_addr, port)] else []) ++ tail)
    else if atype = 3 then
      (parseAddressesFuel is_ip_address fuel (buf.drop 12)).map
        (fun tail => (onionHost (buf.take 10), bytesToNat ((buf.drop 10).take 2)) :: tail)
    else if atype = 4 then
      (parseAddressesFuel is_ip_address fuel (buf.drop 37)).map
        (fun tail => (onionHost (buf.take 35), bytesToNat ((buf.drop 35).take 2)) :: tail)
    else
      some []

/-- C10: the decoding loop terminates on every finite input: each iteration
consumes at least the type byte, so a fuel budget of the buffer length already
reaches the fixpoint `parse_addresses_field`, a total function. -/
theorem parseAddressesFuel_eq_parse (is_ip_address : String → Bool)
    (fuel : Nat) (buf : List Nat) (h : buf.length ≤ fuel) :
    parseAddressesFuel is_ip_address fuel buf
      = some (parse_addresses_field is_ip_address buf) := by
  induction fuel generalizing buf with
  | zero =>
    cases buf with
    | nil => simp [parseAddressesFuel, parse_addresses_field]
    | cons a l => simp at h
  | succ fuel ih =>
    cases buf with
    | nil => simp [parseAddressesFuel, parse_addresses_field]
    | cons atype buf =>
      have hlen : buf.length ≤ fuel := by
        simpa using h
      have hd : ∀ k : Nat, (buf.drop k).length ≤ fuel := fun k => by
        rw [List.length_drop]; omega
      rw [parse_addresses_field]
      simp only [parseAddressesFuel]
      split_ifs
      all_goals
        first
        | exact ih buf hlen
        | (rw [ih _ (hd 6)]; rfl)
        | (rw [ih _ (hd 18)]; rfl)
        | (rw [ih _ (hd 12)]; rfl)
        | (rw [ih _ (hd 37)]; rfl)
        | rfl

/-- Witness for C10 at a concrete truncated input. -/
theorem parseAddressesFuel_eq_parse_witness :
    parseAddressesFuel (fun _ => true) 4 [1, 127, 0, 0]
      = some (parse_addresses_field (fun _ => true) [1, 127, 0, 0]) :=
  parseAddressesFuel_eq_parse (fun _ => true) 4 [1, 127, 0, 0] (by decide)

/-- Evaluation of the decoder on an onion-v2 record whose port bytes are zero:
the record is kept.  (`b32encode` of ten zero bytes is sixteen `A`s.) -/
theorem parse_onion_port_zero_eval :
    parse_addresses_field (fun _ => true)
        [3, 0, 0, 0, 0, 0, 0, 0, 0, 0, 0, 0, 0]
      = [("aaaaaaaaaaaaaaaa.onion", 0)] := by
  rw [parse_addresses_field]
  norm_num
  rw [parse_addresses_field]
  decide

/-- C7 counterexample: the address list decoded from a type-3 (onion v2)
record with port 0 does contain an entry whose port is 0, so the claim that
port-0 records of all four recognised types are dropped is false. -/
theorem parse_addresses_keeps_port_zero_onion :
    parse_addresses_field (fun _ => true)
        [3, 0, 0, 0, 0, 0, 0, 0, 0, 0, 0, 0, 0]
      = [("aaaaaaaaaaaaaaaa.onion", 0)]
    ∧ ("aaaaaaaaaaaaaaaa.onion", 0).2 = 0 :=
  ⟨parse_onion_port_zero_eval, rfl⟩

/-- C7 (amended): every decoded entry whose port is zero is an onion host:
the IPv4 and IPv6 branches drop port-zero records, while the onion v2/v3
branches keep their record whatever the port. -/
theorem parse_addresses_port_zero_entries_are_onion (is_ip_address : String → Bool)
    (buf : List Nat) :
    ∀ e ∈ parse_addresses_field is_ip_address buf, e.2 = 0 →
      ∃ payload, e.1 = onionHost payload := by
  induction buf using parse_addresses_field.induct is_ip_address with
  | case1 =>
    intro e he
    rw [parse_addresses_field] at he
    simp at he
  | case2 buf ih =>
    intro e he hp
    rw [parse_addresses_field] at he
    norm_num at he
    exact ih e he hp
  | case3 buf h1 ih =>
    intro e he hp
    rw [parse_addresses_field] at he
    norm_num at he
    rcases he with ⟨hc, rfl⟩ | hr
    · exact absurd hp hc.2
    · exact ih e hr hp
  | case4 buf h1 h2 ih =>
    intro e he hp
    rw [parse_addresses_field] at he
    norm_num at he
    rcases he with ⟨hc, rfl⟩ | hr
    · exact absurd hp hc.2
    · exact ih e hr hp
  | case5 buf h1 h2 h3 ih =>
    intro e he hp
    rw [parse_addresses_field] at he
    norm_num at he
    rcases he with rfl | hr
    · exact ⟨buf.take 10, rfl⟩
    · exact ih e hr hp
  | case6 buf h1 h2 h3 h4 ih =>
    intro e he hp
    rw [parse_addresses_field] at he
    norm_num at he
    rcases he with rfl | hr
    · exact ⟨buf.take 35, rfl⟩
    · exact ih e hr hp
  | case7 atype buf h0 h1 h2 h3 h4 =>
    intro e he
    rw [parse_addresses_field] at he
    simp [h0, h1, h2, h3, h4] at he

/-- Witness for the amended C7 at the concrete port-zero onion input. -/
theorem parse_addresses_port_zero_entries_are_onion_witness :
    ∃ payload, ("aaaaaaaaaaaaaaaa.onion" : String) = onionHost payload :=
  parse_addresses_port_zero_entries_are_onion (fun _ => true)
    [3, 0, 0, 0, 0, 0, 0, 0, 0, 0, 0, 0, 0] ("aaaaaaaaaaaaaaaa.onion", 0)
    (by rw [parse_addresses_field]; norm_num; rw [parse_addresses_field]; decide)
    rfl

/-! ## The channel/policy store (`ChannelDB` and its row classes) -/

def FLAG_DISABLE : Nat := 2
def FLAG_DIRECTION : Nat := 1

/-- One row of the `policy` table. -/
structure Policy where
  start_node : NodeId
  short_channel_id : SCID
  cltv_expiry_delta : Nat
  htlc_minimum_msat : Nat
  htlc_maximum_msat : Option Nat
  fee_base_msat : Nat
  fee_proportional_millionths : Nat
  channel_flags : Nat
  timestamp : Nat
deriving Repr, DecidableEq

/-- `Policy.disabled`: the source returns `channel_flags & FLAG_DISABLE`, an
integer used for its truthiness. -/
def Policy.disabled (p : Policy) : Bool :=
  decide (p.channel_flags &&& FLAG_DISABLE ≠ 0)

/-- The fields of a deserialised `channel_update` payload used by this module.
Byte-string fields carry the integers `int.from_bytes(_, 'big')` decodes. -/
structure ChannelUpdateMsg where
  chain_hash : Nat
  short_channel_id : SCID
  channel_flags : Nat
  cltv_expiry_delta : Nat
  htlc_minimum_msat : Nat
  htlc_maximum_msat : Option Nat
  fee_base_msat : Nat
  fee_proportional_millionths : Nat
  timestamp : Nat
deriving Repr, DecidableEq

/-- Transcribed from `Policy.from_msg`.  The source constructor sets neither
`start_node` nor `short_channel_id` (those columns stay unset until the row is
keyed); they are modelled as `0` and are never read off a `from_msg` result. -/
def Policy.from_msg (msg : ChannelUpdateMsg) : Policy :=
  { start_node := 0
    short_channel_id := 0
    cltv_expiry_delta := msg.cltv_expiry_delta
    htlc_minimum_msat := msg.htlc_minimum_msat
    htlc_maximum_msat := msg.htlc_maximum_msat
    fee_base_msat := msg.fee_base_msat
    fee_proportional_millionths := msg.fee_proportional_millionths
    channel_flags := msg.channel_flags
    timestamp := msg.timestamp }

/-- One row of the `channel_info` table. -/
structure ChannelInfoInDB where
  short_channel_id : SCID
  node1_id : NodeId
  node2_id : NodeId
  capacity_sat : Option Nat
deriving Repr, DecidableEq

/-- Transcribed from `ChannelInfoInDB.get_policy_for_node`: the membership
test `if node.hex() not in (self.node1_id, self.node2_id)` reads `self`, which
inside this nested class is the enclosing `ChannelDB` (the row is `self2`),
and a `ChannelDB` has no `node1_id` attribute — so every call raises
`AttributeError` before the `start_node`-only `.one()` query on the next line
(modelled by `queryOne`) can ever run.  The row and policy-table parameters
are kept so call sites read like the source. -/
def ChannelInfoInDB.get_policy_for_node (policies : List Policy)
    (c : ChannelInfoInDB) (node : NodeId) : Except PyError Policy :=
  .error (.attributeError "node1_id")

/-- Transcribed from `ChannelInfoInDB.on_channel_update`: build the new
Policy, pick the direction's start node from the flags, drop the update when a
stored policy is at least as new, check the signature unless trusted, then
copy the new fields onto the stored row.  When no stored row exists
(`old_policy is None`) the source's field assignments dereference `None` and
raise `AttributeError`; nothing is ever inserted.
`verify_sig_for_channel_update` lives in `lnchannelverifier` (not in this
source file) and is modelled as the parameter `verify_sig`. -/
def ChannelInfoInDB.on_channel_update (verify_sig : ChannelUpdateMsg → NodeId → Bool)
    (policies : List Policy) (c : ChannelInfoInDB) (msg : ChannelUpdateMsg)
    (trusted : Bool) : Except PyError (List Policy) :=
  if msg.short_channel_id ≠ c.short_channel_id then
    .error (.exceptionMsg "AssertionError")
  else
    let flags := msg.channel_flags
    let direction := flags &&& FLAG_DIRECTION
    let new_policy := Policy.from_msg msg
    let node_id := if direction = 0 then c.node1_id else c.node2_id
    match queryOneOrNone (policies.filter (fun p =>
        p.short_channel_id == c.short_channel_id && p.start_node == node_id)) with
    | .error e => .error e
    | .ok (some old_policy) =>
      if new_policy.timestamp ≤ old_policy.timestamp then
        .ok policies  -- ignore
      else if ¬trusted ∧ ¬(verify_sig msg node_id) then
        .ok policies  -- ignore
      else
        .ok (policies.map (fun p =>
          if p.short_channel_id == c.short_channel_id && p.start_node == node_id then
            { p with cltv_expiry_delta := new_policy.cltv_expiry_delta
                     htlc_minimum_msat := new_policy.htlc_minimum_msat
                     htlc_maximum_msat := new_policy.htlc_maximum_msat
                     fee_base_msat := new_policy.fee_base_msat
                     fee_proportional_millionths := new_policy.fee_proportional_millionths
                     channel_flags := new_policy.channel_flags
                     timestamp := new_policy.timestamp }
          else p))
    | .ok none =>
      if ¬trusted ∧ ¬(verify_sig msg node_id) then
        .ok policies  -- ignore
      else
        -- `old_policy.cltv_expiry_delta = ...` with `old_policy = None`
        .error (.attributeError "NoneType object has no attribute")

/-- The mutable per-`ChannelDB` state touched by the operations modelled
here: the `channel_info` and `policy` tables and the in-memory
private-channel-updates cache. -/
structure ChannelDBState where
  channels : List ChannelInfoInDB
  policies : List Policy
  channel_updates_for_private_channels : List ((NodeId × SCID) × ChannelUpdateMsg)
deriving Repr, DecidableEq

/-- Transcribed from `ChannelDB.chan_for_id`: the source queries
`self.ChanInfoInDB`, but the attribute stored by `__init__` is named
`ChannelInfoInDB`, so the attribute lookup raises `AttributeError` before any
filtering happens. -/
def ChannelDB.chan_for_id (st : ChannelDBState) (short_channel_id : SCID) :
    Except PyError (List ChannelInfoInDB) :=
  .error (.attributeError "ChanInfoInDB")

/-- Transcribed from `ChannelDB.on_channel_update`: drop the update on a
chain-hash mismatch; look for the channel among the verifier's pending
channels, then — via `chan_for_id` — in the verified table, raising
`NotFoundChanAnnouncementForUpdate` when both lookups miss; otherwise delegate
to the channel's `on_channel_update`.  The verifier (`lnchannelverifier`) is
external; its `get_pending_channel_info` is modelled as the parameter
`pending`, and `constants.net.rev_genesis_bytes()` as `genesis`. -/
def ChannelDB.on_channel_update (genesis : Nat)
    (pending : SCID → Option ChannelInfoInDB)
    (verify_sig : ChannelUpdateMsg → NodeId → Bool)
    (st : ChannelDBState) (msg : ChannelUpdateMsg) (trusted : Bool) :
    Except PyError ChannelDBState :=
  if genesis ≠ msg.chain_hash then .ok st
  else
    let lookup : Except PyError (Option ChannelInfoInDB) :=
      match pending msg.short_channel_id with
      | some ci => .ok (some ci)
      | none =>
        match ChannelDB.chan_for_id st msg.short_channel_id with
        | .error e => .error e
        | .ok rows => queryOneOrNone rows
    match lookup with
    | .error e => .error e
    | .ok none => .error .notFoundChanAnnouncementForUpdate
    | .ok (some channel_info) =>
      match ChannelInfoInDB.on_channel_update verify_sig st.policies
          channel_info msg trusted with
      | .error e => .error e
      | .ok policies2 => .ok { st with policies := policies2 }

/-- Modelled from the spec: `get_channel_info(scid) → Channel?` — "Lookup in
verified set."  (Called throughout this module; its definition is elsewhere in
the repository.) -/
def ChannelDB.get_channel_info (st : ChannelDBState) (short_channel_id : SCID) :
    Option ChannelInfoInDB :=
  st.channels.find? (fun c => c.short_channel_id == short_channel_id)

/-- Transcribed from `ChannelDB.get_routing_policy_for_channel`: empty
arguments give `None` (byte-string falsiness is modelled by `0`); when the
verified graph has the channel, delegate to its `get_policy_for_node`;
otherwise fall back to the in-memory private-updates cache, decoding the raw
cached update with `Policy.from_msg`. -/
def ChannelDB.get_routing_policy_for_channel (st : ChannelDBState)
    (start_node_id : NodeId) (short_channel_id : SCID) :
    Except PyError (Option Policy) :=
  if start_node_id = 0 ∨ short_channel_id = 0 then .ok none
  else
    match ChannelDB.get_channel_info st short_channel_id with
    | some channel_info =>
      match ChannelInfoInDB.get_policy_for_node st.policies channel_info start_node_id with
      | .error e => .error e
      | .ok p => .ok (some p)
    | none =>
      match st.channel_updates_for_private_channels.find?
          (fun kv => kv.1.1 == start_node_id && kv.1.2 == short_channel_id) with
      | none => .ok none
      | some kv => .ok (some (Policy.from_msg kv.2))

/-! ## Recent peers (`ChannelDB.add_recent_peer`) -/

structure LNPeerAddr where
  host : String
  port : Nat
  pubkey : NodeId
deriving Repr, DecidableEq

/-- One row of the `address` table. -/
structure AddressInDB where
  node_id : NodeId
  host : String
  port : Nat
  last_connected_date : Nat
deriving Repr, DecidableEq

/-- The slice of the store that `add_recent_peer` touches: the `node_info`
primary keys and the `address` table. -/
structure PeerTables where
  node_ids : List NodeId
  addresses : List AddressInDB
deriving Repr, DecidableEq

def ChannelDB.NUM_MAX_RECENT_PEERS : Nat := 20

/-- Transcribed from `ChannelDB.add_recent_peer`: look up the peer's address
row by `node_id`; when absent, create a shell node if the node is unknown and
insert a new address row stamped `now`; when present, refresh that row's
`last_connected_date`.  `datetime.datetime.now()` is the parameter `now`.
No eviction of any kind is performed and `NUM_MAX_RECENT_PEERS` is not
consulted. -/
def ChannelDB.add_recent_peer (st : PeerTables) (peer : LNPeerAddr) (now : Nat) :
    Except PyError PeerTables :=
  match queryOneOrNone (st.addresses.filter (fun a => a.node_id == peer.pubkey)) with
  | .error e => .error e
  | .ok none =>
    match queryOneOrNone (st.node_ids.filter (fun n => n == peer.pubkey)) with
    | .error e => .error e
    | .ok nodeRow =>
      let node_ids := if nodeRow.isSome then st.node_ids else st.node_ids ++ [peer.pubkey]
      .ok { node_ids := node_ids
            addresses := st.addresses ++ [⟨peer.pubkey, peer.host, peer.port, now⟩] }
  | .ok (some _) =>
    .ok { st with addresses := st.addresses.map (fun a =>
            if a.node_id == peer.pubkey then { a with last_connected_date := now } else a) }

/-- Iterate `add_recent_peer` over a list of (peer, time) pairs. -/
def addRecentPeers (st : PeerTables) : List (LNPeerAddr × Nat) → Except PyError PeerTables
  | [] => .ok st
  | (p, t) :: rest =>
    match ChannelDB.add_recent_peer st p t with
    | .error e => .error e
    | .ok st2 => addRecentPeers st2 rest

/-! ## Theorems about the store operations -/

/-- A channel between nodes 10 and 20 with scid 5. -/
def chanC1 : ChannelInfoInDB := ⟨5, 10, 20, none⟩

/-- A `channel_update` for scid 5 in direction 0 with timestamp 100. -/
def msgC1 : ChannelUpdateMsg := ⟨0, 5, 0, 40, 0, none, 1000, 0, 100⟩

/-- C1: on an empty policy table, a first `channel_update` for a channel does
not insert a Policy — the source assigns fields on `old_policy = None` and
raises `AttributeError` — so no update sequence that starts with no stored
policy for (scid, direction) can end with a stored Policy of
`timestamp = max tᵢ`. -/
theorem on_channel_update_first_update_crashes :
    ChannelInfoInDB.on_channel_update (fun _ _ => true) [] chanC1 msgC1 true
      = .error (.attributeError "NoneType object has no attribute") := by
  rfl

/-- A `channel_update` for the unknown scid 99 on chain 7. -/
def msgC4 : ChannelUpdateMsg := ⟨7, 99, 0, 40, 0, none, 1000, 0, 100⟩

/-- C4: a `channel_update` with matching chain hash whose scid is in neither
the pending set nor the verified graph raises `AttributeError` — the
`chan_for_id` lookup reads the misnamed attribute `ChanInfoInDB` — and never
reaches the `NotFoundChanAnnouncementForUpdate` raise. -/
theorem on_channel_update_unknown_scid_attribute_error :
    ChannelDB.on_channel_update 7 (fun _ => none) (fun _ _ => true)
        ⟨[], [], []⟩ msgC4 false
      = .error (.attributeError "ChanInfoInDB")
    ∧ ChannelDB.on_channel_update 7 (fun _ => none) (fun _ _ => true)
        ⟨[], [], []⟩ msgC4 false
      ≠ .error .notFoundChanAnnouncementForUpdate := by
  exact ⟨rfl, by decide⟩

/-- Channel 2's policy in the direction starting at node 10. -/
def polC5 : Policy := ⟨10, 2, 40, 0, none, 500, 0, 0, 50⟩

/-- Two channels (scid 1 between 10 and 20, scid 2 between 10 and 30), and a
single stored policy — the policy of channel 2 keyed (2, 10). -/
def stC5 : ChannelDBState := ⟨[⟨1, 10, 20, none⟩, ⟨2, 10, 30, none⟩], [polC5], []⟩

/-- C5: with channel 1 present in the verified graph,
`get_routing_policy_for_channel(10, 1)` returns neither the Policy keyed
(1, 10) nor `None`: it delegates to `get_policy_for_node`, whose party test
reads `self.node1_id` off the enclosing `ChannelDB` and raises
`AttributeError` on every call, so the verified-graph branch always raises. -/
theorem get_routing_policy_raises_attribute_error :
    ChannelDB.get_routing_policy_for_channel stC5 10 1
      = .error (.attributeError "node1_id") := by
  exact rfl

/-- C8 counterexample: adding 21 peers with distinct pubkeys to an empty store
leaves 21 address rows — above `NUM_MAX_RECENT_PEERS = 20`; nothing is ever
evicted. -/
theorem add_recent_peer_exceeds_cap :
    (addRecentPeers ⟨[], []⟩
        ((List.range 21).map (fun i => (⟨"h", 9735, i + 1⟩, i)))).map
      (fun st => st.addresses.length) = .ok 21
    ∧ ChannelDB.NUM_MAX_RECENT_PEERS < 21 := by
  exact ⟨by decide, by decide⟩

/-- C8 (amended): `add_recent_peer` is a pure upsert and never evicts — a
successful call never decreases the number of stored address rows, so the
address table is unbounded and the constant `NUM_MAX_RECENT_PEERS` is never
consulted. -/
theorem add_recent_peer_never_evicts (st : PeerTables) (peer : LNPeerAddr)
    (now : Nat) (st2 : PeerTables)
    (h : ChannelDB.add_recent_peer st peer now = .ok st2) :
    st.addresses.length ≤ st2.addresses.length := by
  unfold ChannelDB.add_recent_peer at h
  split at h
  · exact absurd h (by simp)
  · split at h
    · exact absurd h (by simp)
    · simp only [Except.ok.injEq] at h
      subst h
      simp
  · simp only [Except.ok.injEq] at h
    subst h
    simp

/-- Witness for the amended C8 at a concrete single insertion. -/
theorem add_recent_peer_never_evicts_witness :
    (⟨[], []⟩ : PeerTables).addresses.length
      ≤ (⟨[1], [⟨1, "h", 9735, 0⟩]⟩ : PeerTables).addresses.length :=
  add_recent_peer_never_evicts ⟨[], []⟩ ⟨"h", 9735, 1⟩ 0
    ⟨[1], [⟨1, "h", 9735, 0⟩]⟩ rfl

/-! ## The path finder (`LNPathFinder`) -/

/-- A local channel as the finder sees it: the scid key of the caller's map
and the `can_pay` view. -/
structure MyChannel where
  short_channel_id : SCID
  can_pay : Int → Bool

/-- Modelled from the spec: `get_channels_for_node(node_id) → iterator<SCID>` —
"All Channels incident to a node (both endpoints)."  (Called by the finder;
its definition is elsewhere in the repository.) -/
def ChannelDB.get_channels_for_node (st : ChannelDBState) (node_id : NodeId) :
    List SCID :=
  (st.channels.filter (fun c => c.node1_id == node_id || c.node2_id == node_id)).map
    (fun c => c.short_channel_id)

/-- Transcribed from `RouteEdge.from_channel_policy`. -/
def RouteEdge.from_channel_policy (channel_policy : Policy)
    (short_channel_id : SCID) (end_node : NodeId) : RouteEdge :=
  ⟨end_node, short_channel_id, channel_policy.fee_base_msat,
    channel_policy.fee_proportional_millionths, channel_policy.cltv_expiry_delta⟩

/-- Addition on `ℚ` computed through `mkRat`; used in the heuristic-cost
arithmetic so that concrete searches evaluate inside the kernel
(`Rat.add` itself is irreducible).  `ratAdd_eq_add` shows it is `+`. -/
def ratAdd (a b : ℚ) : ℚ := mkRat (a.num * b.den + b.num * a.den) (a.den * b.den)

theorem ratAdd_eq_add (a b : ℚ) : ratAdd a b = a + b := by
  unfold ratAdd
  rw [Rat.add_def]
  rw [Rat.normalize_eq_mkRat]

/-- Transcribed from `LNPathFinder._edge_cost`: the heuristic cost of a
channel in the direction `start_node → end_node` for a given forwarded
amount, with the fee charged; an infinite cost is `none`.  The float
arithmetic `fee_msat / 1000 / 10` is carried out in `ℚ`.  Exceptions raised
by `get_policy_for_node` propagate. -/
def LNPathFinder.edge_cost (st : ChannelDBState) (short_channel_id : SCID)
    (start_node end_node : NodeId) (payment_amt_msat : Int) (ignore_costs : Bool) :
    Except PyError (Option ℚ × Int) :=
  match ChannelDB.get_channel_info st short_channel_id with
  | none => .ok (none, 0)
  | some channel_info =>
    match ChannelInfoInDB.get_policy_for_node st.policies channel_info start_node with
    | .error e => .error e
    | .ok channel_policy =>
      -- the source's `if channel_policy is None` is unreachable:
      -- `get_policy_for_node` always raises
      if channel_policy.disabled then .ok (none, 0)
      else
        let route_edge := RouteEdge.from_channel_policy channel_policy
          short_channel_id end_node
        if payment_amt_msat < (channel_policy.htlc_minimum_msat : Int) then
          .ok (none, 0)  -- payment amount too little
        else if (match channel_info.capacity_sat with
                 | some cap => decide ((cap : Int) < Int.fdiv payment_amt_msat 1000)
                 | none => false) then
          .ok (none, 0)  -- payment amount too large
        else if (match channel_policy.htlc_maximum_msat with
                 | some m => decide ((m : Int) < payment_amt_msat)
                 | none => false) then
          .ok (none, 0)  -- payment amount too large
        else if ¬ route_edge.is_sane_to_use payment_amt_msat then
          .ok (none, 0)  -- thanks but no thanks
        else
          let fee_msat : Int :=
            if ¬ ignore_costs then route_edge.fee_for_edge payment_amt_msat else 0
          -- `fee_msat / 1000 / 10`, exactly: one division by 10000 in `ℚ`
          let fee_cost : ℚ := mkRat fee_msat 10000
          let cltv_cost : ℚ :=
            if ¬ ignore_costs then mkRat (route_edge.cltv_expiry_delta : Int) 1 else 0
          .ok (some (ratAdd (ratAdd cltv_cost fee_cost) (mkRat 1 1)), fee_msat)

/-- A pending queue entry of `nodes_to_explore`:
(heuristic distance, amount to forward, node).  Only finite distances are
ever pushed, so the distance component is a plain `ℚ`. -/
abbrev QEntry := ℚ × Int × NodeId

/-- The lexicographic tuple order Python's `PriorityQueue` uses on entries. -/
def qle (a b : QEntry) : Bool :=
  decide (a.1 < b.1) || (decide (a.1 = b.1) &&
    (decide (a.2.1 < b.2.1) || (decide (a.2.1 = b.2.1) && decide (a.2.2 ≤ b.2.2))))

/-- Insert an entry behind every entry that does not exceed it: a sorted-list
model of the min-heap (`get` pops the head). -/
def qput (q : List QEntry) (e : QEntry) : List QEntry :=
  match q with
  | [] => [e]
  | x :: rest => if qle x e then x :: qput rest e else e :: x :: rest

/-- The search state of `find_path_for_payment`: `distance_from_start` and
`prev_node` as association lists (a node missing from `dist` has distance
`+inf`), and the priority queue. -/
structure SearchState where
  dist : List (NodeId × ℚ)
  prev : List (NodeId × NodeId × SCID)
  queue : List QEntry

def lookupDist (s : SearchState) (n : NodeId) : Option ℚ :=
  (s.dist.find? (fun p => p.1 == n)).map (fun p => p.2)

def lookupPrev (prev : List (NodeId × NodeId × SCID)) (n : NodeId) :
    Option (NodeId × SCID) :=
  (prev.find? (fun p => p.1 == n)).map (fun p => p.2)

/-- Transcribed from the nested `inspect_edge` of `find_path_for_payment`:
the local-channel gate, then `_edge_cost`, then the relaxation.  An infinite
tentative distance never relaxes; a failed `assert edge_endnode == nodeA`
raises.  `amount_msat` is the amount popped with `edge_endnode`. -/
def inspectEdge (st : ChannelDBState) (my_channels : List MyChannel)
    (nodeA : NodeId) (edge_endnode : NodeId) (amount_msat : Int)
    (c : ChannelInfoInDB) (s : SearchState) : Except PyError SearchState :=
  let edge_channel_id := c.short_channel_id
  let edge_startnode := if c.node1_id == edge_endnode then c.node2_id else c.node1_id
  let proceed : Except PyError Bool :=
    match my_channels.find? (fun mc => mc.short_channel_id == edge_channel_id) with
    | some mc =>
      if edge_startnode == nodeA then
        -- payment outgoing, on our channel
        if ¬ mc.can_pay amount_msat then .ok false else .ok true
      else
        -- payment incoming, on our channel
        if edge_endnode == nodeA then .ok true
        else .error (.exceptionMsg "AssertionError")
    | none => .ok true
  match proceed with
  | .error e => .error e
  | .ok false => .ok s
  | .ok true =>
    match LNPathFinder.edge_cost st edge_channel_id edge_startnode edge_endnode
        amount_msat (edge_startnode == nodeA) with
    | .error e => .error e
    | .ok (none, _) => .ok s  -- infinite edge cost: alt distance stays infinite
    | .ok (some edge_cost, fee_for_edge_msat) =>
      match lookupDist s edge_endnode with
      | none => .ok s         -- infinite distance to endnode: no relaxation
      | some dEnd =>
        let alt_dist_to_neighbour := ratAdd dEnd edge_cost
        let better :=
          match lookupDist s edge_startnode with
          | none => true
          | some dStart => decide (alt_dist_to_neighbour < dStart)
        if better then
          let amount_to_forward_msat := amount_msat + fee_for_edge_msat
          .ok { dist := (edge_startnode, alt_dist_to_neighbour)
                        :: s.dist.filter (fun p => p.1 != edge_startnode)
                prev := (edge_startnode, (edge_endnode, edge_channel_id))
                        :: s.prev.filter (fun p => p.1 != edge_startnode)
                queue := qput s.queue
                  (alt_dist_to_neighbour, amount_to_forward_msat, edge_startnode) }
        else .ok s

/-- The `for edge_channel_id in get_channels_for_node(edge_endnode)` loop:
skip blacklisted scids, resolve the channel (the source reads `node1_id` off
the lookup result without a `None` check), and inspect each edge. -/
def foldEdges (st : ChannelDBState) (my_channels : List MyChannel)
    (blacklist : List SCID) (nodeA : NodeId) (edge_endnode : NodeId)
    (amount_msat : Int) : List SCID → SearchState → Except PyError SearchState
  | [], s => .ok s
  | scid :: rest, s =>
    if blacklist.contains scid then
      foldEdges st my_channels blacklist nodeA edge_endnode amount_msat rest s
    else
      match ChannelDB.get_channel_info st scid with
      | none => .error (.attributeError "NoneType object has no attribute")
      | some channel_info =>
        match inspectEdge st my_channels nodeA edge_endnode amount_msat
            channel_info s with
        | .error e => .error e
        | .ok s2 => foldEdges st my_channels blacklist nodeA edge_endnode
            amount_msat rest s2

/-- Transcribed from the backtracking loop after the search: walk `prev_node`
from `nodeA` until `nodeB`, emitting `(node, scid)` pairs; `none` models a
missing `prev_node` key (Python `KeyError`) or a walk longer than the fuel. -/
def backtrack (prev : List (NodeId × NodeId × SCID)) (nodeB : NodeId) :
    Nat → NodeId → Option (List (NodeId × SCID))
  | 0, cur => if cur == nodeB then some [] else none
  | fuel + 1, cur =>
    if cur == nodeB then some []
    else
      match lookupPrev prev cur with
      | none => none
      | some (nxt, scid) =>
        match backtrack prev nodeB fuel nxt with
        | none => none
        | some path => some ((nxt, scid) :: path)

/-- The possible outcomes of the search loop. -/
inductive SearchOutcome where
  | found (path : List (NodeId × SCID))
  | noPath
  | keyError
  | fuelOut
deriving Repr, DecidableEq

/-- The main `while nodes_to_explore.qsize() > 0` loop: pop the least entry,
stop with a backtracked path at `nodeA`, drop stale duplicates
(`dist != distance_from_start[node]`), else relax every non-blacklisted
incident edge.  One unit of fuel per pop; `.fuelOut` reports exhaustion and
`.noPath` is the loop's `else: return None`. -/
def searchLoop (st : ChannelDBState) (my_channels : List MyChannel)
    (blacklist : List SCID) (nodeA nodeB : NodeId) :
    Nat → SearchState → Except PyError SearchOutcome
  | 0, _ => .ok .fuelOut
  | fuel + 1, s =>
    match s.queue with
    | [] => .ok .noPath
    | (dist_to_edge_endnode, amount_msat, edge_endnode) :: rest =>
      let s2 : SearchState := { s with queue := rest }
      if edge_endnode == nodeA then
        match backtrack s2.prev nodeB (s2.prev.length + 1) nodeA with
        | none => .ok .keyError
        | some path => .ok (.found path)
      else if lookupDist s2 edge_endnode != some dist_to_edge_endnode then
        searchLoop st my_channels blacklist nodeA nodeB fuel s2
      else
        match foldEdges st my_channels blacklist nodeA edge_endnode amount_msat
            (ChannelDB.get_channels_for_node st edge_endnode) s2 with
        | .error e => .error e
        | .ok s3 => searchLoop st my_channels blacklist nodeA nodeB fuel s3

/-- The finder's own state: the graph store it reads and the caller-maintained
blacklist of scids. -/
structure LNPathFinder where
  channel_db : ChannelDBState
  blacklist : List SCID

/-- Transcribed from `LNPathFinder.find_path_for_payment`: run the reverse
Dijkstra from `nodeB` toward `nodeA` with the queue seeded by
`(0, invoice_amount_msat, nodeB)` and `distance_from_start[nodeB] = 0`.  The
pair's second component is the finder state after the call: the method body
contains no assignment to `self.blacklist` or `self.channel_db`, so it is
returned as received. -/
def LNPathFinder.find_path_for_payment (pf : LNPathFinder) (nodeA nodeB : NodeId)
    (invoice_amount_msat : Int) (my_channels : List MyChannel) (fuel : Nat) :
    Except PyError SearchOutcome × LNPathFinder :=
  let s0 : SearchState :=
    { dist := [(nodeB, 0)]
      prev := []
      queue := [((0 : ℚ), invoice_amount_msat, nodeB)] }
  (searchLoop pf.channel_db my_channels pf.blacklist nodeA nodeB fuel s0, pf)

/-- C9: for every graph, payer, payee, invoice amount, local-channel map (and
fuel), `find_path_for_payment` leaves the finder's blacklist unchanged: the
search reads it when filtering edges but never adds to or removes from it. -/
theorem find_path_leaves_blacklist_unchanged (pf : LNPathFinder)
    (nodeA nodeB : NodeId) (invoice_amount_msat : Int)
    (my_channels : List MyChannel) (fuel : Nat) :
    (pf.find_path_for_payment nodeA nodeB invoice_amount_msat my_channels fuel).2.blacklist
      = pf.blacklist := rfl

/-- Scenario S1: nodes A = 1, X = 2, B = 3; channel 1 between A and X whose
policy toward X (start node A) has fee base 1000 msat, proportional 0,
cltv 40, htlc_min 0, no htlc_max; channel 2 between X and B whose policy
toward B (start node X) has fee base 500, proportional 0, cltv 40. -/
def stS1 : ChannelDBState :=
  ⟨[⟨1, 1, 2, none⟩, ⟨2, 2, 3, none⟩],
   [⟨1, 1, 40, 0, none, 1000, 0, 0, 60⟩, ⟨2, 2, 40, 0, none, 500, 0, 0, 60⟩],
   []⟩

/-- C2: on the scenario-S1 graph `find_path_for_payment(A, B, 1_000_000)` does
not return the path A→X→B: the very first edge inspection (expanding B,
looking up channel 2's policy for start node X) calls `get_policy_for_node`,
whose party test reads `self.node1_id` off the enclosing `ChannelDB` and
raises `AttributeError`, which propagates out of the search. -/
theorem find_path_s1_raises_attribute_error :
    (LNPathFinder.find_path_for_payment ⟨stS1, []⟩ 1 3 1000000 [] 10).1
      = .error (.attributeError "node1_id") := by
  decide

end ElectrumLNRouter
